import Mathlib

/-!
Shallow embedding of the album-a-day cache/metadata core.

Source files embedded here:
  src/app/lib/music-storage.ts        (class MusicStorage)
  src/app/lib/auth-utils.ts           (class MusicCache, second half of the file)
  src/app/lib/listening-entries.ts    (class ListeningEntries)
  src/app/lib/musicbrainz-client.ts   (class MusicBrainzClient)
  src/app/lib/artwork-storage.ts      (downloadAndSaveArtwork, modelled as an oracle)

Modelling conventions:
  * Redis is a key-value store from string keys to entries carrying a value and
    an optional expiry deadline (absolute milliseconds-free "time unit": we use
    seconds for TTL reasoning, matching the EXPIRE arguments in the source).
    SET clears any TTL on the key, as Redis SET does; EXPIRE installs a
    deadline now + ttl; GET at time tq returns the value iff there is no
    deadline or tq is before it.
  * A Redis string value is represented by its parsed content: the source
    always writes JSON.stringify of a typed record (or a raw string) and reads
    it back with JSON.parse plus a blind cast, so serialization is modelled as
    a typed injection (constructor of RVal) and deserialization as the
    matching projection.
  * HTTP fetches are modelled by an environment (oracle) mapping request
    identifiers to outcomes; a thrown JS exception is the .error branch of
    Except.
  * JS numbers in the rating validator are modelled by JSNum, with IEEE
    comparison semantics for NaN and the infinities.
-/

namespace AlbumADay

/-! ## Redis store model -/

namespace MS

/-- Album record of music-storage.ts (interface Album, lines 6-17). -/
structure Track where
  id : String
  title : String
  releaseId : String
  artistName : String
  artistID : String
deriving DecidableEq, Repr

structure Album where
  id : String
  title : String
  artistName : String
  artistId : String
  listens : Option Nat := none
  releaseDate : Option String := none
  coverArtUrl : Option String := none
  localArtPath : Option String := none
  tracks : Option (List Track) := none
  releaseGroupId : Option String := none
deriving DecidableEq, Repr

/-- Artist record of music-storage.ts (interface Artist, lines 36-41). -/
structure Artist where
  id : String
  name : String
  country : Option String := none
  disambiguation : Option String := none
deriving DecidableEq, Repr

/-- ReleaseGroup record of music-storage.ts (interface ReleaseGroup, lines 27-34). -/
structure ReleaseGroup where
  id : String
  title : String
  artist : String
  artistId : String
  type : Option String := none
  firstReleaseDate : Option String := none
deriving DecidableEq, Repr

/-- SearchResult of music-storage.ts (interface SearchResult, lines 44-48). -/
structure SearchResult where
  albums : List Album
  artists : List Artist
  total : Nat
deriving DecidableEq, Repr

end MS

namespace MC

/-- Album record of the MusicCache half of auth-utils.ts (interface Album). -/
structure Album where
  id : String
  title : String
  artist : String
  artistId : String
  releaseDate : Option String := none
  coverArtUrl : Option String := none
  trackCount : Option Nat := none
  musicBrainzId : Option String := none
  releaseGroupId : Option String := none
deriving DecidableEq, Repr

/-- ReleaseGroup record of the MusicCache half of auth-utils.ts. -/
structure ReleaseGroup where
  id : String
  title : String
  artist : String
  artistId : String
  type : Option String := none
  primaryTypeId : Option String := none
  secondaryTypeIds : Option (List String) := none
  firstReleaseDate : Option String := none
  musicBrainzId : Option String := none
deriving DecidableEq, Repr

/-- Artist record of the MusicCache half of auth-utils.ts. -/
structure Artist where
  id : String
  name : String
  country : Option String := none
  disambiguation : Option String := none
  musicBrainzId : Option String := none
deriving DecidableEq, Repr

/-- SearchResult of the MusicCache half of auth-utils.ts. -/
structure SearchResult where
  albums : List Album
  artists : List Artist
  total : Nat
deriving DecidableEq, Repr

end MC

/-- Parsed content of a Redis string (or hash) value.  The source only ever
stores JSON.stringify of one of these record shapes, a raw string (cover-art
URLs), or a field hash (HSET); JSON round-tripping is modelled by the
constructor injection. -/
inductive RVal where
  | msAlbum (a : MS.Album)
  | msArtist (a : MS.Artist)
  | msSearch (r : MS.SearchResult)
  | mcAlbum (a : MC.Album)
  | mcArtist (a : MC.Artist)
  | mcReleaseGroup (g : MC.ReleaseGroup)
  | mcAlbums (l : List MC.Album)
  | mcSearch (r : MC.SearchResult)
  | rawStr (s : String)
  | hash (fields : List (String × String))
deriving DecidableEq, Repr

/-- One stored entry: the value plus its optional absolute expiry deadline. -/
structure Entry where
  val : RVal
  expiresAt : Option Nat := none
deriving DecidableEq, Repr

/-- The Redis keyspace. -/
def Store : Type := String → Option Entry

/-- The empty keyspace. -/
def emptyStore : Store := fun _ => none

/-- Redis SET key value: installs the value and clears any TTL on the key. -/
def redisSet (s : Store) (k : String) (v : RVal) : Store :=
  fun k' => if k' = k then some { val := v, expiresAt := none } else s k'

/-- Redis EXPIRE key ttl issued at absolute time `now`: installs the deadline
`now + ttl` when the key exists, and does nothing otherwise. -/
def redisExpire (s : Store) (k : String) (now ttl : Nat) : Store :=
  fun k' =>
    if k' = k then
      match s k with
      | some e => some { e with expiresAt := some (now + ttl) }
      | none => none
    else s k'

/-- Redis GET key at absolute time `tq`: returns the value iff the key exists
and its deadline (if any) has not been reached. -/
def redisGet (s : Store) (k : String) (tq : Nat) : Option RVal :=
  match s k with
  | none => none
  | some e =>
    match e.expiresAt with
    | none => some e.val
    | some d => if tq < d then some e.val else none

/-- Redis DEL key. -/
def redisDel (s : Store) (k : String) : Store :=
  fun k' => if k' = k then none else s k'

/-! ## ListeningEntries.validateRating (listening-entries.ts lines 228-230) -/

/-- A JavaScript number, as far as the rating validator observes it: NaN, the
two infinities, or a finite value (the test inputs 0, 10, 7.5, -1, 11 are all
exactly representable, so finite values are modelled by rationals). -/
inductive JSNum where
  | nan
  | inf
  | negInf
  | num (q : ℚ)
deriving DecidableEq, Repr

namespace JSNum

/-- IEEE `>=` as used by JavaScript: false whenever either side is NaN. -/
def jsGe : JSNum → JSNum → Bool
  | nan, _ => false
  | _, nan => false
  | inf, _ => true
  | negInf, negInf => true
  | negInf, _ => false
  | num _, inf => false
  | num _, negInf => true
  | num a, num b => a ≥ b

/-- IEEE `<=` as used by JavaScript: false whenever either side is NaN. -/
def jsLe : JSNum → JSNum → Bool
  | nan, _ => false
  | _, nan => false
  | negInf, _ => true
  | inf, inf => true
  | inf, _ => false
  | num _, negInf => false
  | num _, inf => true
  | num a, num b => a ≤ b

/-- Number.isFinite. -/
def isFinite : JSNum → Bool
  | num _ => true
  | _ => false

end JSNum

namespace ListeningEntries

/-- listening-entries.ts lines 228-230:
`return rating >= -1 && rating <= 11 && Number.isFinite(rating);` -/
def validateRating (rating : JSNum) : Bool :=
  rating.jsGe (.num (-1)) && rating.jsLe (.num 11) && rating.isFinite

end ListeningEntries

/-- JavaScript String.prototype.toLowerCase as used on search queries
(character-wise simple lowercasing; the queries at issue are ASCII). -/
def jsToLower (s : String) : String := String.mk (s.data.map Char.toLower)

/-! ## MusicStorage (music-storage.ts)

All operations are static methods on one shared Redis connection; they are
embedded as functions on the Store.  Reads take the query time `tq` (for the
expiry check in GET); writes that issue EXPIRE take the write time. -/

namespace MusicStorage

/-- music-storage.ts lines 60-75.  Writes the JSON record under
`album:{id}` and the Redisearch field hash under `album:hash:{id}`.
No TTL is applied to either key. -/
def cacheAlbum (s : Store) (album : MS.Album) : Store :=
  let s1 := redisSet s ("album:" ++ album.id) (.msAlbum album)
  redisSet s1 ("album:hash:" ++ album.id)
    (.hash [("title", album.title), ("artistName", album.artistName),
            ("id", album.id), ("artistId", album.artistId)])

/-- music-storage.ts lines 80-87. -/
def getCachedAlbum (s : Store) (tq : Nat) (albumId : String) : Option MS.Album :=
  match redisGet s ("album:" ++ albumId) tq with
  | some (.msAlbum a) => some a
  | _ => none

/-- music-storage.ts lines 92-104.  Writes the JSON record under
`album:mbid:{mbid}` plus the field hash under `album:hash:{album.id}`;
no TTL on either. -/
def cacheAlbumByMBID (s : Store) (mbid : String) (album : MS.Album) : Store :=
  let s1 := redisSet s ("album:mbid:" ++ mbid) (.msAlbum album)
  redisSet s1 ("album:hash:" ++ album.id)
    (.hash [("title", album.title), ("artistName", album.artistName),
            ("id", album.id), ("artistId", album.artistId)])

/-- music-storage.ts lines 109-116. -/
def getCachedAlbumByMBID (s : Store) (tq : Nat) (mbid : String) : Option MS.Album :=
  match redisGet s ("album:mbid:" ++ mbid) tq with
  | some (.msAlbum a) => some a
  | _ => none

/-- music-storage.ts lines 121-123.  No TTL. -/
def cacheArtist (s : Store) (artist : MS.Artist) : Store :=
  redisSet s ("artist:" ++ artist.id) (.msArtist artist)

/-- music-storage.ts lines 128-135. -/
def getCachedArtist (s : Store) (tq : Nat) (artistId : String) : Option MS.Artist :=
  match redisGet s ("artist:" ++ artistId) tq with
  | some (.msArtist a) => some a
  | _ => none

/-- music-storage.ts lines 264-268.  Key is the query lowercased (no trim),
value is the JSON search result, then EXPIRE 3600 (one hour). -/
def cacheSearchResults (s : Store) (now : Nat) (query : String)
    (results : MS.SearchResult) : Store :=
  let cacheKey := "search:" ++ jsToLower query
  redisExpire (redisSet s cacheKey (.msSearch results)) cacheKey now 3600

/-- music-storage.ts lines 273-281. -/
def getCachedSearchResults (s : Store) (tq : Nat) (query : String) :
    Option MS.SearchResult :=
  match redisGet s ("search:" ++ jsToLower query) tq with
  | some (.msSearch r) => some r
  | _ => none

end MusicStorage

/-! ## MusicCache (second half of auth-utils.ts)

Every write is SET followed by EXPIRE with the kind's TTL (the TTL is a
trailing default parameter in the source, kept as such here). -/

namespace MusicCache

/-- DEFAULT_TTL = 24 * 60 * 60 seconds. -/
def DEFAULT_TTL : Nat := 24 * 60 * 60

/-- SEARCH_TTL = 4 * 60 * 60 seconds. -/
def SEARCH_TTL : Nat := 4 * 60 * 60

/-- COVER_ART_TTL = 7 * 24 * 60 * 60 seconds. -/
def COVER_ART_TTL : Nat := 7 * 24 * 60 * 60

/-- auth-utils.ts (MusicCache) cacheAlbum: SET `album:{id}` then EXPIRE ttl. -/
def cacheAlbum (s : Store) (now : Nat) (album : MC.Album)
    (ttl : Nat := DEFAULT_TTL) : Store :=
  redisExpire (redisSet s ("album:" ++ album.id) (.mcAlbum album))
    ("album:" ++ album.id) now ttl

/-- auth-utils.ts (MusicCache) getCachedAlbum. -/
def getCachedAlbum (s : Store) (tq : Nat) (albumId : String) : Option MC.Album :=
  match redisGet s ("album:" ++ albumId) tq with
  | some (.mcAlbum a) => some a
  | _ => none

/-- auth-utils.ts (MusicCache) cacheAlbumByMBID: SET `album:mbid:{mbid}` then
EXPIRE ttl. -/
def cacheAlbumByMBID (s : Store) (now : Nat) (mbid : String) (album : MC.Album)
    (ttl : Nat := DEFAULT_TTL) : Store :=
  redisExpire (redisSet s ("album:mbid:" ++ mbid) (.mcAlbum album))
    ("album:mbid:" ++ mbid) now ttl

/-- auth-utils.ts (MusicCache) getCachedAlbumByMBID. -/
def getCachedAlbumByMBID (s : Store) (tq : Nat) (mbid : String) : Option MC.Album :=
  match redisGet s ("album:mbid:" ++ mbid) tq with
  | some (.mcAlbum a) => some a
  | _ => none

/-- auth-utils.ts (MusicCache) cacheArtist: SET `artist:{id}` then EXPIRE ttl. -/
def cacheArtist (s : Store) (now : Nat) (artist : MC.Artist)
    (ttl : Nat := DEFAULT_TTL) : Store :=
  redisExpire (redisSet s ("artist:" ++ artist.id) (.mcArtist artist))
    ("artist:" ++ artist.id) now ttl

/-- auth-utils.ts (MusicCache) getCachedArtist. -/
def getCachedArtist (s : Store) (tq : Nat) (artistId : String) : Option MC.Artist :=
  match redisGet s ("artist:" ++ artistId) tq with
  | some (.mcArtist a) => some a
  | _ => none

/-- auth-utils.ts (MusicCache) cacheArtistByMBID. -/
def cacheArtistByMBID (s : Store) (now : Nat) (mbid : String) (artist : MC.Artist)
    (ttl : Nat := DEFAULT_TTL) : Store :=
  redisExpire (redisSet s ("artist:mbid:" ++ mbid) (.mcArtist artist))
    ("artist:mbid:" ++ mbid) now ttl

/-- auth-utils.ts (MusicCache) getCachedArtistByMBID. -/
def getCachedArtistByMBID (s : Store) (tq : Nat) (mbid : String) : Option MC.Artist :=
  match redisGet s ("artist:mbid:" ++ mbid) tq with
  | some (.mcArtist a) => some a
  | _ => none

/-- auth-utils.ts (MusicCache) cacheReleaseGroup: SET `release_group:{id}` then
EXPIRE ttl. -/
def cacheReleaseGroup (s : Store) (now : Nat) (releaseGroup : MC.ReleaseGroup)
    (ttl : Nat := DEFAULT_TTL) : Store :=
  redisExpire (redisSet s ("release_group:" ++ releaseGroup.id)
      (.mcReleaseGroup releaseGroup))
    ("release_group:" ++ releaseGroup.id) now ttl

/-- auth-utils.ts (MusicCache) getCachedReleaseGroup. -/
def getCachedReleaseGroup (s : Store) (tq : Nat) (releaseGroupId : String) :
    Option MC.ReleaseGroup :=
  match redisGet s ("release_group:" ++ releaseGroupId) tq with
  | some (.mcReleaseGroup g) => some g
  | _ => none

/-- Hexadecimal digit (uppercase), for percent-encoding. -/
def hexDigit (n : Nat) : Char :=
  if n < 10 then Char.ofNat (48 + n) else Char.ofNat (65 + n - 10)

/-- UTF-8 byte sequence of a character, for percent-encoding. -/
def utf8Bytes (c : Char) : List Nat :=
  let n := c.toNat
  if n < 0x80 then [n]
  else if n < 0x800 then
    [0xC0 ||| (n >>> 6), 0x80 ||| (n &&& 0x3F)]
  else if n < 0x10000 then
    [0xE0 ||| (n >>> 12), 0x80 ||| ((n >>> 6) &&& 0x3F), 0x80 ||| (n &&& 0x3F)]
  else
    [0xF0 ||| (n >>> 18), 0x80 ||| ((n >>> 12) &&& 0x3F),
     0x80 ||| ((n >>> 6) &&& 0x3F), 0x80 ||| (n &&& 0x3F)]

/-- ECMAScript encodeURIComponent leaves A-Z a-z 0-9 and - _ . ! ~ * ' ( )
unescaped (their code points below) and percent-encodes everything else as
UTF-8 bytes. -/
def uriUnescaped (c : Char) : Bool :=
  c.isAlphanum || [45, 95, 46, 33, 126, 42, 39, 40, 41].contains c.toNat

/-- The percent-encoded group of one byte: the percent sign (code point 37)
followed by two uppercase hexadecimal digits. -/
def pctGroup (b : Nat) : List Char :=
  [Char.ofNat 37, hexDigit (b / 16), hexDigit (b % 16)]

/-- Encoding of a single character under encodeURIComponent. -/
def encodeChar (c : Char) : List Char :=
  if uriUnescaped c then [c] else (utf8Bytes c).flatMap pctGroup

/-- ECMAScript encodeURIComponent, used in the MusicCache search key. -/
def encodeComponent (q : String) : String :=
  String.mk (q.data.flatMap encodeChar)

/-- The scalar value encoded by a UTF-8 byte sequence of length 1 to 4 (used
only to invert utf8Bytes in proofs). -/
def utf8Val : List Nat → Nat
  | [b0] => b0
  | [b0, b1] => (b0 - 0xC0) * 64 + (b1 - 0x80)
  | [b0, b1, b2] => (b0 - 0xE0) * 4096 + (b1 - 0x80) * 64 + (b2 - 0x80)
  | [b0, b1, b2, b3] =>
      (b0 - 0xF0) * 262144 + (b1 - 0x80) * 4096 + (b2 - 0x80) * 64 + (b3 - 0x80)
  | _ => 0

/-- The length of a UTF-8 byte sequence as determined by its lead byte (used
only in proofs). -/
def utf8LenOf (b0 : Nat) : Nat :=
  if b0 < 0xC0 then 1 else if b0 < 0xE0 then 2 else if b0 < 0xF0 then 3 else 4

/-- auth-utils.ts (MusicCache) cacheSearchResults. -/
def cacheSearchResults (s : Store) (now : Nat) (query : String)
    (results : MC.SearchResult) (ttl : Nat := SEARCH_TTL) : Store :=
  let key := "search:" ++ encodeComponent (jsToLower query)
  redisExpire (redisSet s key (.mcSearch results)) key now ttl

/-- auth-utils.ts (MusicCache) getCachedSearchResults. -/
def getCachedSearchResults (s : Store) (tq : Nat) (query : String) :
    Option MC.SearchResult :=
  match redisGet s ("search:" ++ encodeComponent (jsToLower query)) tq with
  | some (.mcSearch r) => some r
  | _ => none

/-- auth-utils.ts (MusicCache) cacheArtistAlbums: SET `artist:{id}:albums`
then EXPIRE ttl. -/
def cacheArtistAlbums (s : Store) (now : Nat) (artistId : String)
    (albums : List MC.Album) (ttl : Nat := DEFAULT_TTL) : Store :=
  let key := "artist:" ++ artistId ++ ":albums"
  redisExpire (redisSet s key (.mcAlbums albums)) key now ttl

/-- auth-utils.ts (MusicCache) getCachedArtistAlbums. -/
def getCachedArtistAlbums (s : Store) (tq : Nat) (artistId : String) :
    Option (List MC.Album) :=
  match redisGet s ("artist:" ++ artistId ++ ":albums") tq with
  | some (.mcAlbums l) => some l
  | _ => none

/-- auth-utils.ts (MusicCache) cacheCoverArt: SET `cover:{mbid}` to the raw URL
string then EXPIRE COVER_ART_TTL. -/
def cacheCoverArt (s : Store) (now : Nat) (mbid : String) (coverArtUrl : String)
    (ttl : Nat := COVER_ART_TTL) : Store :=
  redisExpire (redisSet s ("cover:" ++ mbid) (.rawStr coverArtUrl))
    ("cover:" ++ mbid) now ttl

/-- auth-utils.ts (MusicCache) getCachedCoverArt. -/
def getCachedCoverArt (s : Store) (tq : Nat) (mbid : String) : Option String :=
  match redisGet s ("cover:" ++ mbid) tq with
  | some (.rawStr u) => some u
  | _ => none

/-- auth-utils.ts (MusicCache) cacheReleaseGroupReleases: SET
`release_group:{id}:releases` then EXPIRE ttl. -/
def cacheReleaseGroupReleases (s : Store) (now : Nat) (releaseGroupId : String)
    (releases : List MC.Album) (ttl : Nat := DEFAULT_TTL) : Store :=
  let key := "release_group:" ++ releaseGroupId ++ ":releases"
  redisExpire (redisSet s key (.mcAlbums releases)) key now ttl

/-- auth-utils.ts (MusicCache) getCachedReleaseGroupReleases. -/
def getCachedReleaseGroupReleases (s : Store) (tq : Nat)
    (releaseGroupId : String) : Option (List MC.Album) :=
  match redisGet s ("release_group:" ++ releaseGroupId ++ ":releases") tq with
  | some (.mcAlbums l) => some l
  | _ => none

/-- auth-utils.ts (MusicCache) invalidateAlbum (lines 479-481 of the
concatenated file): deletes `album:{albumId}` only. -/
def invalidateAlbum (s : Store) (albumId : String) : Store :=
  redisDel s ("album:" ++ albumId)

/-- auth-utils.ts (MusicCache) invalidateArtist (lines 486-489): deletes
`artist:{artistId}` AND the secondary collection `artist:{artistId}:albums`. -/
def invalidateArtist (s : Store) (artistId : String) : Store :=
  redisDel (redisDel s ("artist:" ++ artistId)) ("artist:" ++ artistId ++ ":albums")

end MusicCache

/-! ## MusicBrainzClient (musicbrainz-client.ts)

### Rate limiter (lines 105-154)

The static limiter state is `lastRequestTime` and `requestTimes`.  A call to
makeRequest runs synchronously (one event-loop turn) from entry up to the
first await it hits: it prunes `requestTimes` in place (line 117), possibly
sleeps for the burst wait (line 125) and/or the spacing wait (line 132), and
then calls fetch (line 136) - the dispatch - suspending at `await fetch`.
Only after the response resolves does it set `lastRequestTime` and push the
new timestamp (lines 147-148).  `makeRequestEntry` models the synchronous
entry segment: it returns the list of sleeps the caller would perform before
dispatching, together with the limiter state as mutated by that segment. -/

namespace RateLimiter

/-- RATE_LIMIT_DELAY = 100 ms (line 107). -/
def RATE_LIMIT_DELAY : Nat := 100

/-- BURST_LIMIT = 5 requests (line 108). -/
def BURST_LIMIT : Nat := 5

/-- BURST_WINDOW = 1000 ms (line 109). -/
def BURST_WINDOW : Nat := 1000

/-- The static fields lastRequestTime (line 110) and requestTimes (line 111). -/
structure LimiterState where
  lastRequestTime : Nat := 0
  requestTimes : List Nat := []
deriving DecidableEq, Repr

/-- Lines 114-133 of makeRequest, the synchronous segment before the fetch:
prune the window, compute the burst sleep (if the pruned window is full) and
the spacing sleep (if under the minimum spacing and not bursting).  Returns
the sleep durations the caller performs before dispatching the fetch, and the
limiter state after this segment (the prune at line 117 is the only mutation;
timestamps are recorded only after the fetch resolves, in `completeRequest`). -/
def makeRequestEntry (now : Nat) (st : LimiterState) :
    List Nat × LimiterState :=
  let pruned := st.requestTimes.filter (fun time => now - time < BURST_WINDOW)
  let burstSleeps : List Nat :=
    if pruned.length ≥ BURST_LIMIT then
      let oldestRequest := pruned.headD 0
      let waitTime := BURST_WINDOW - (now - oldestRequest)
      if waitTime > 0 then [waitTime] else []
    else []
  let timeSinceLastRequest := now - st.lastRequestTime
  let spacingSleeps : List Nat :=
    if timeSinceLastRequest < RATE_LIMIT_DELAY ∧ pruned.length < BURST_LIMIT then
      [RATE_LIMIT_DELAY - timeSinceLastRequest]
    else []
  (burstSleeps ++ spacingSleeps, { st with requestTimes := pruned })

/-- Lines 147-148 of makeRequest, run after `await fetch` resolves at
`finishTime`: record the request timestamp. -/
def completeRequest (finishTime : Nat) (st : LimiterState) : LimiterState :=
  { lastRequestTime := finishTime, requestTimes := st.requestTimes ++ [finishTime] }

/-- Runs n logical callers entering makeRequest back to back on the event loop at
clock `now` (none of the in-flight fetches has resolved yet, so no
`completeRequest` runs in between).  A caller whose entry segment needs no
sleep reaches `await fetch` within its synchronous segment and therefore
dispatches at `now`; a caller that must sleep dispatches later and is not
counted here.  Returns the dispatch times and the final limiter state. -/
def runEntries : Nat → Nat → LimiterState → List Nat × LimiterState
  | 0, _, st => ([], st)
  | n + 1, now, st =>
    let (sleeps, st1) := makeRequestEntry now st
    let (rest, stf) := runEntries n now st1
    ((if sleeps = [] then [now] else []) ++ rest, stf)

end RateLimiter

/-! ### Fetch environment and response shapes -/

namespace MB

/-- One element of an `artist-credit` array: `{ name, artist: { id, name } }`. -/
structure CreditArtist where
  id : String
  name : String
deriving DecidableEq, Repr

structure Credit where
  name : String
  artist : CreditArtist
deriving DecidableEq, Repr

/-- A release-group entry of the search response (`release-groups` array of
MusicBrainzSearchResponse, lines 68-82). -/
structure RGEntry where
  id : String
  title : String
  artistCredit : List Credit
  type : Option String := none
  primaryType : Option String := none
  firstReleaseDate : Option String := none
deriving DecidableEq, Repr

/-- An artist entry of the search response (lines 96-101). -/
structure ArtistRec where
  id : String
  name : String
  country : Option String := none
  disambiguation : Option String := none
deriving DecidableEq, Repr

/-- MusicBrainzSearchResponse (lines 67-103), as consumed by search(). -/
structure SearchResponse where
  releaseGroups : Option (List RGEntry) := none
  artists : Option (List ArtistRec) := none
  count : Nat := 0
deriving DecidableEq, Repr

/-- A release inside a release-group lookup (releases array of
MusicBrainzReleaseGroup, lines 45-57). -/
structure RGRelease where
  id : String
  title : String
  date : Option String := none
  trackCount : Nat := 0
deriving DecidableEq, Repr

/-- MusicBrainzReleaseGroup (lines 31-58), as consumed by
getReleaseGroupReleases. -/
structure ReleaseGroupResponse where
  id : String
  title : String
  artistCredit : List Credit := []
  type : Option String := none
  primaryType : Option String := none
  firstReleaseDate : Option String := none
  releases : Option (List RGRelease) := none
deriving DecidableEq, Repr

/-- MusicBrainzRelease (lines 10-29), as consumed by getRelease. -/
structure ReleaseResponse where
  id : String
  title : String
  artistCredit : List Credit
  date : Option String := none
  trackCount : Nat := 0
  releaseGroupId : Option String := none
deriving DecidableEq, Repr

/-- A cover-art image record from coverartarchive.org: the `front` flag, the
full-size `image` URL, and the `thumbnails` map (only its "500" entry is read). -/
structure CoverImage where
  front : Bool
  image : String
  thumb500 : Option String := none
deriving DecidableEq, Repr

/-- An error thrown out of makeRequest: either the fetch itself rejected
(transport) or the response was non-2xx (line 144 throws on !response.ok;
a provider 404 takes this branch too). -/
inductive FetchErr where
  | transport
  | http (status : Nat)
deriving DecidableEq, Repr

/-- Outcome of the cover-art metadata fetch of the (unreachable) code at
lines 476-500: a network rejection, a non-ok status, a JSON parse failure, or
a parsed body whose `images` field may be absent. -/
inductive CoverFetch where
  | netError
  | httpError (status : Nat)
  | parseError
  | ok (images : Option (List CoverImage))
deriving DecidableEq, Repr

end MB

/-- The upstream world as one oracle per endpoint family, keyed by the id (or
query) interpolated into the URL.  `artworkSave` is the
downloadAndSaveArtwork collaborator of artwork-storage.ts: it returns the
local public path on success and none on any failure (it never throws). -/
structure Env where
  searchResp : String → Nat → Except MB.FetchErr MB.SearchResponse
  releaseResp : String → Except MB.FetchErr MB.ReleaseResponse
  rgResp : String → Except MB.FetchErr MB.ReleaseGroupResponse
  artistResp : String → Except MB.FetchErr MB.ArtistRec
  coverResp : String → MB.CoverFetch
  artworkSave : String → String → Option String

namespace MusicBrainzClient

/-- COVER_ART_ARCHIVE_BASE followed by /release/{mbid}: the metadata URL built
at line 472. -/
def coverArtMetadataUrl (mbid : String) : String :=
  "https://coverartarchive.org/release/" ++ mbid

/-- musicbrainz-client.ts lines 467-545, getCoverArtUrl, as shipped: line 473
is an unconditional `return metadataUrl;`, so the function returns the
coverartarchive metadata-endpoint URL for every input without fetching
anything; lines 474-544 (metadata fetch, front-image selection, thumbnail
preference, local save) are unreachable.  The enclosing try/catch means the
function never throws, hence the plain Option result. -/
def getCoverArtUrl (mbid : String) : Option String :=
  some (coverArtMetadataUrl mbid)

/-- The unreachable remainder of getCoverArtUrl (lines 476-544), embedded
separately so its intended result can be compared with what the shipped
function returns: fetch the metadata (network error, non-ok status or parse
failure gives null), select the image flagged front, else the first image,
else null; prefer the "500" thumbnail over the full image; when a URL was
found, try downloadAndSaveArtwork and prefer the local path when the save
succeeds. -/
def coverArtResolution (env : Env) (mbid : String) : Option String :=
  match env.coverResp mbid with
  | .netError => none
  | .httpError _ => none
  | .parseError => none
  | .ok images =>
    let imgs := images.getD []
    let coverArtUrl : Option String :=
      match imgs.find? (fun image => image.front) with
      | some frontImage => some (frontImage.thumb500.getD frontImage.image)
      | none =>
        match imgs with
        | [] => none
        | firstImage :: _ => some (firstImage.thumb500.getD firstImage.image)
    match coverArtUrl with
    | none => none
    | some url =>
      match env.artworkSave mbid url with
      | some localPath => some localPath
      | none => some url

/-- musicbrainz-client.ts lines 360-395, getRelease: on any makeRequest error
(404 and transport alike) the catch at line 391 returns null; a missing
artist-credit returns null; otherwise the Album is built and the cover-art URL
attached (getCoverArtUrl never throws and, as shipped, always returns the
metadata URL, so coverArtUrl is always set on this path).  The Except layer
records whether the call throws to its caller: it never does. -/
def getRelease (env : Env) (mbid : String) :
    Except MB.FetchErr (Option MS.Album) :=
  match env.releaseResp mbid with
  | .error _ => .ok none
  | .ok release =>
    match release.artistCredit with
    | [] => .ok none
    | artistCredit :: _ =>
      let album : MS.Album :=
        { id := release.id
          title := release.title
          artistName := artistCredit.name
          artistId := artistCredit.artist.id
          releaseDate := release.date
          releaseGroupId := release.releaseGroupId
          coverArtUrl := getCoverArtUrl release.id }
      .ok (some album)

/-- musicbrainz-client.ts lines 400-416, getArtist: on any makeRequest error
the catch at line 412 returns null; otherwise the Artist record is returned.
It never throws. -/
def getArtist (env : Env) (mbid : String) :
    Except MB.FetchErr (Option MS.Artist) :=
  match env.artistResp mbid with
  | .error _ => .ok none
  | .ok artist =>
    .ok (some { id := artist.id, name := artist.name,
                country := artist.country,
                disambiguation := artist.disambiguation })

/-- The comparator of line 622-627: sort releases by date ascending, releases
without a date last. -/
def releaseDateLE (a b : MB.RGRelease) : Bool :=
  match a.date, b.date with
  | none, none => true
  | none, some _ => false
  | some _, none => true
  | some da, some db => decide (da ≤ db)

/-- musicbrainz-client.ts lines 608-671, getReleaseGroupReleases: fetch the
release group (any error is caught at line 667 and yields []); when the
releases array is absent return []; otherwise sort by date (absent dates
last), take `limit` releases, and build an Album per release using the caller
supplied artist name/id (falling back to the group title / group id), with
the cover art from getCoverArtUrl (which, as shipped, always yields the
metadata URL; its try/catch never throws). -/
def getReleaseGroupReleases (env : Env) (releaseGroupId : String) (limit : Nat)
    (artistName : Option String := none) (artistId : Option String := none) :
    List MS.Album :=
  match env.rgResp releaseGroupId with
  | .error _ => []
  | .ok data =>
    match data.releases with
    | none => []
    | some rels =>
      let sortedReleases := rels.mergeSort releaseDateLE
      let limitedReleases := sortedReleases.take limit
      limitedReleases.map fun release =>
        { id := release.id
          title := release.title
          artistName := artistName.getD data.title
          artistId := artistId.getD releaseGroupId
          releaseDate := release.date
          releaseGroupId := some releaseGroupId
          coverArtUrl := getCoverArtUrl release.id }

/-- The degraded Album synthesized at lines 225-232 when a release group
yields no releases: release-group id as album id, group title, first artist
credit, the group's first-release-date, no cover art. -/
def fallbackAlbum (releaseGroup : MB.RGEntry) (artistCredit : MB.Credit) :
    MS.Album :=
  { id := releaseGroup.id
    title := releaseGroup.title
    artistName := artistCredit.name
    artistId := artistCredit.artist.id
    releaseDate := releaseGroup.firstReleaseDate
    releaseGroupId := some releaseGroup.id }

/-- The Album built at lines 204-213 from the representative release of a
release group. -/
def releaseAlbum (releaseGroup : MB.RGEntry) (release : MS.Album) : MS.Album :=
  { id := release.id
    title := release.title
    artistName := release.artistName
    artistId := release.artistId
    releaseDate := release.releaseDate
    tracks := release.tracks
    releaseGroupId := some releaseGroup.id
    coverArtUrl := release.coverArtUrl }

/-- One iteration of the release-group loop of search (lines 176-243), the
albums it appends: nothing when the artist-credit array is missing or empty
(the `if (artistCredit)` guard at line 178 has no else branch); otherwise the
album from the representative release when one resolved, else the fallback
album from the group metadata. -/
def processGroupAlbums (env : Env) (releaseGroup : MB.RGEntry) :
    List MS.Album :=
  match releaseGroup.artistCredit with
  | [] => []
  | artistCredit :: _ =>
    let releases := getReleaseGroupReleases env releaseGroup.id 1
      (some artistCredit.name) (some artistCredit.artist.id)
    match releases with
    | release :: _ => [releaseAlbum releaseGroup release]
    | [] => [fallbackAlbum releaseGroup artistCredit]

/-- The same iteration's effect on the store: each produced album is written
through MusicStorage.cacheAlbum (lines 220 and 239); a skipped group writes
nothing. -/
def processGroupStore (env : Env) (s : Store) (releaseGroup : MB.RGEntry) :
    Store :=
  (processGroupAlbums env releaseGroup).foldl MusicStorage.cacheAlbum s

/-- The release-group for-loop of search (lines 176-243): accumulate albums
and thread the cache writes. -/
def searchLoop (env : Env) : List MB.RGEntry → List MS.Album → Store →
    List MS.Album × Store
  | [], acc, s => (acc, s)
  | releaseGroup :: rest, acc, s =>
    searchLoop env rest (acc ++ processGroupAlbums env releaseGroup)
      (processGroupStore env s releaseGroup)

/-- The artist loop of search (lines 247-257). -/
def searchArtists (data : MB.SearchResponse) : List MS.Artist :=
  (data.artists.getD []).map fun artist =>
    { id := artist.id, name := artist.name, country := artist.country,
      disambiguation := artist.disambiguation }

/-- musicbrainz-client.ts lines 159-270, search: fetch the release-group
search endpoint (a makeRequest error is rethrown by the catch at line 266-268,
hence the .error branch), process each release group (caching each produced
album), collect the artists, and return `{albums, artists, total: count}`.
The `rgObject` built at lines 180-187 is never used afterwards and is
omitted. -/
def search (env : Env) (s : Store) (query : String) (limit : Nat := 10) :
    Except MB.FetchErr (MS.SearchResult × Store) :=
  match env.searchResp query limit with
  | .error e => .error e
  | .ok data =>
    let p := searchLoop env (data.releaseGroups.getD []) [] s
    .ok ({ albums := p.1, artists := searchArtists data, total := data.count }, p.2)

end MusicBrainzClient

/-! ## Helper lemmas on the store model and on keys -/

theorem redisGet_set_self (s : Store) (k : String) (v : RVal) (tq : Nat) :
    redisGet (redisSet s k v) k tq = some v := by
  simp [redisGet, redisSet]

theorem redisGet_set_ne (s : Store) {k k' : String} (v : RVal) (tq : Nat)
    (h : k' ≠ k) : redisGet (redisSet s k v) k' tq = redisGet s k' tq := by
  simp [redisGet, redisSet, h]

theorem redisGet_expire_ne (s : Store) {k k' : String} (now ttl tq : Nat)
    (h : k' ≠ k) :
    redisGet (redisExpire s k now ttl) k' tq = redisGet s k' tq := by
  simp [redisGet, redisExpire, h]

theorem redisGet_del_ne (s : Store) {k k' : String} (tq : Nat) (h : k' ≠ k) :
    redisGet (redisDel s k) k' tq = redisGet s k' tq := by
  simp [redisGet, redisDel, h]

theorem redisGet_setExpire_live (s : Store) (k : String) (v : RVal)
    {now ttl tq : Nat} (h : tq < now + ttl) :
    redisGet (redisExpire (redisSet s k v) k now ttl) k tq = some v := by
  simp [redisGet, redisExpire, redisSet, h]

theorem redisGet_setExpire_dead (s : Store) (k : String) (v : RVal)
    {now ttl tq : Nat} (h : now + ttl ≤ tq) :
    redisGet (redisExpire (redisSet s k v) k now ttl) k tq = none := by
  simp [redisGet, redisExpire, redisSet, Nat.not_lt.mpr h]

/-- Appending the same string on the left is cancellable. -/
theorem str_append_cancel {p x y : String} (h : p ++ x = p ++ y) : x = y := by
  have h2 := congrArg String.data h
  simp [String.data_append] at h2
  exact String.ext h2

/-- Distinct suffixes after a common literal give distinct keys. -/
theorem str_append_ne {p x y : String} (h : x ≠ y) : p ++ x ≠ p ++ y :=
  fun he => h (str_append_cancel he)

theorem hash_ne_mbid (x y : String) : ("hash:" ++ x : String) ≠ "mbid:" ++ y := by
  intro h
  have h2 := congrArg String.data h
  simp [String.data_append] at h2

theorem id_ne_hash_id (x : String) : x ≠ "hash:" ++ x := by
  intro h
  have h2 := congrArg String.length h
  simp [String.length_append] at h2
  exact absurd h2 (by decide)

theorem search_key_ne_album_key (x y : String) :
    ("search:" ++ x : String) ≠ "album:" ++ y := by
  intro h
  have h2 := congrArg String.data h
  simp [String.data_append] at h2

theorem rg_key_ne_album_key (x y : String) :
    ("release_group:" ++ x : String) ≠ "album:" ++ y := by
  intro h
  have h2 := congrArg String.data h
  simp [String.data_append] at h2

theorem artist_key_ne_album_key (x y : String) :
    ("artist:" ++ x : String) ≠ "album:" ++ y := by
  intro h
  have h2 := congrArg String.data h
  simp [String.data_append] at h2

theorem search_key_ne_artist_key (x y : String) :
    ("search:" ++ x : String) ≠ "artist:" ++ y := by
  intro h
  have h2 := congrArg String.data h
  simp [String.data_append] at h2

/-- A string with no colon cannot be of the form "mbid:" followed by anything. -/
theorem no_colon_ne_mbid_append {x : String} (h : ¬ (':' ∈ x.data)) (y : String) :
    x ≠ "mbid:" ++ y := by
  intro he
  apply h
  rw [he]
  simp [String.data_append]

/-- A colon-free string other than "mbid", with ":albums" appended, cannot be
"mbid:" followed by anything (the colon introduced by the suffix would have to
line up with the colon of "mbid:", forcing the string to be exactly "mbid"). -/
theorem albums_suffix_ne_mbid_append {x : String} (h1 : ¬ (':' ∈ x.data))
    (h2 : x ≠ "mbid") (y : String) : x ++ ":albums" ≠ "mbid:" ++ y := by
  intro he
  have hd := congrArg String.data he
  simp [String.data_append] at hd
  rcases hx : x.data with _ | ⟨c1, _ | ⟨c2, _ | ⟨c3, _ | ⟨c4, _ | ⟨c5, tl⟩⟩⟩⟩⟩ <;>
      rw [hx] at hd
  · simp at hd
  · simp at hd
  · simp at hd
  · simp at hd
  · simp at hd
    obtain ⟨e1, e2, e3, e4, _⟩ := hd
    exact h2 (String.ext (by rw [hx, e1, e2, e3, e4]))
  · simp at hd
    obtain ⟨_, _, _, _, e5, _⟩ := hd
    exact h1 (by rw [hx, e5]; simp)

/-! ### Injectivity of the encodeURIComponent model

Distinct lowercased queries must give distinct MusicCache search keys, so the
percent-encoding is injective: percent groups are self-delimiting (an
unescaped character is never the percent sign, the lead byte of a UTF-8
sequence determines its length, and the byte sequence determines the
character). -/

namespace MusicCache

theorem char_eq_of_toNat_eq {c d : Char} (h : c.toNat = d.toNat) : c = d := by
  cases c; cases d
  simp only [Char.toNat] at h
  congr 1
  exact UInt32.ext h

theorem char_toNat_lt (c : Char) : c.toNat < 0x110000 := by
  have h := c.valid
  rcases h with h | ⟨h1, h2⟩
  · calc c.toNat < 0xd800 := h
      _ < 0x110000 := by norm_num
  · exact h2

theorem and63 (n : Nat) : n &&& 63 = n % 64 := by
  have h := Nat.and_pow_two_sub_one_eq_mod n 6
  norm_num at h
  exact h

theorem hexDigit_inj : ∀ n < 16, ∀ m < 16, hexDigit n = hexDigit m → n = m := by
  decide

theorem lor_c0 : ∀ x < 0x20, 0xC0 ||| x = 0xC0 + x := by decide

theorem lor_80 : ∀ x < 0x40, 0x80 ||| x = 0x80 + x := by decide

theorem lor_e0 : ∀ x < 0x10, 0xE0 ||| x = 0xE0 + x := by decide

theorem lor_f0 : ∀ x < 0x8, 0xF0 ||| x = 0xF0 + x := by decide

/-- The four branches of utf8Bytes, with the bitwise arithmetic rewritten to
division and remainder. -/
theorem utf8_cases (c : Char) :
    (c.toNat < 0x80 ∧ utf8Bytes c = [c.toNat])
    ∨ (0x80 ≤ c.toNat ∧ c.toNat < 0x800 ∧
        utf8Bytes c = [0xC0 + c.toNat / 64, 0x80 + c.toNat % 64])
    ∨ (0x800 ≤ c.toNat ∧ c.toNat < 0x10000 ∧
        utf8Bytes c = [0xE0 + c.toNat / 4096, 0x80 + c.toNat / 64 % 64,
          0x80 + c.toNat % 64])
    ∨ (0x10000 ≤ c.toNat ∧ c.toNat < 0x110000 ∧
        utf8Bytes c = [0xF0 + c.toNat / 262144, 0x80 + c.toNat / 4096 % 64,
          0x80 + c.toNat / 64 % 64, 0x80 + c.toNat % 64]) := by
  have hv := char_toNat_lt c
  by_cases h1 : c.toNat < 0x80
  · exact Or.inl ⟨h1, by simp [utf8Bytes, h1]⟩
  · by_cases h2 : c.toNat < 0x800
    · refine Or.inr (Or.inl ⟨by omega, h2, ?_⟩)
      have ha := and63 c.toNat
      simp only [utf8Bytes, if_neg h1, if_pos h2]
      rw [lor_c0 _ (by omega), lor_80 _ (by omega)]
      simp only [List.cons.injEq, and_true]
      exact ⟨by omega, by omega⟩
    · by_cases h3 : c.toNat < 0x10000
      · refine Or.inr (Or.inr (Or.inl ⟨by omega, h3, ?_⟩))
        have ha := and63 c.toNat
        have ha6 := and63 (c.toNat >>> 6)
        simp only [utf8Bytes, if_neg h1, if_neg h2, if_pos h3]
        rw [lor_e0 _ (by omega), lor_80 _ (by omega), lor_80 _ (by omega)]
        simp only [List.cons.injEq, and_true]
        exact ⟨by omega, by omega, by omega⟩
      · refine Or.inr (Or.inr (Or.inr ⟨by omega, hv, ?_⟩))
        have ha := and63 c.toNat
        have ha6 := and63 (c.toNat >>> 6)
        have ha12 := and63 (c.toNat >>> 12)
        simp only [utf8Bytes, if_neg h1, if_neg h2, if_neg h3]
        rw [lor_f0 _ (by omega), lor_80 _ (by omega), lor_80 _ (by omega),
          lor_80 _ (by omega)]
        simp only [List.cons.injEq, and_true]
        exact ⟨by omega, by omega, by omega, by omega⟩

theorem utf8Val_utf8Bytes (c : Char) : utf8Val (utf8Bytes c) = c.toNat := by
  rcases utf8_cases c with ⟨h, hb⟩ | ⟨h1, h2, hb⟩ | ⟨h1, h2, hb⟩ | ⟨h1, h2, hb⟩ <;>
    rw [hb] <;> simp only [utf8Val] <;> omega

theorem utf8Bytes_inj {c d : Char} (h : utf8Bytes c = utf8Bytes d) : c = d := by
  apply char_eq_of_toNat_eq
  rw [← utf8Val_utf8Bytes c, ← utf8Val_utf8Bytes d, h]

theorem utf8Bytes_ne_nil (c : Char) : utf8Bytes c ≠ [] := by
  rcases utf8_cases c with ⟨h, hb⟩ | ⟨h1, h2, hb⟩ | ⟨h1, h2, hb⟩ | ⟨h1, h2, hb⟩ <;>
    simp [hb]

theorem utf8Bytes_lt (c : Char) : ∀ b ∈ utf8Bytes c, b < 256 := by
  rcases utf8_cases c with ⟨h, hb⟩ | ⟨h1, h2, hb⟩ | ⟨h1, h2, hb⟩ | ⟨h1, h2, hb⟩ <;>
    rw [hb] <;> intro b hbm <;> simp at hbm <;> omega

theorem utf8_len_head (c : Char) (b0 : Nat)
    (h : (utf8Bytes c).head? = some b0) :
    (utf8Bytes c).length = utf8LenOf b0 := by
  rcases utf8_cases c with ⟨hr, hb⟩ | ⟨h1, h2, hb⟩ | ⟨h1, h2, hb⟩ | ⟨h1, h2, hb⟩ <;>
      rw [hb] at h ⊢ <;>
      simp only [List.head?_cons, Option.some.injEq] at h <;>
      simp only [List.length_cons, List.length_nil, utf8LenOf]
  · rw [if_pos (by omega)]
  · rw [if_neg (by omega), if_pos (by omega)]
  · rw [if_neg (by omega), if_neg (by omega), if_pos (by omega)]
  · rw [if_neg (by omega), if_neg (by omega), if_neg (by omega)]

theorem pct_head_eq {b b2 : Nat} {t t2 : List Char} (hb : b < 256) (hb2 : b2 < 256)
    (h : pctGroup b ++ t = pctGroup b2 ++ t2) : b = b2 ∧ t = t2 := by
  simp only [pctGroup, List.cons_append, List.nil_append, List.cons.injEq] at h
  obtain ⟨-, h1, h2, h3⟩ := h
  have e1 := hexDigit_inj _ (by omega) _ (by omega) h1
  have e2 := hexDigit_inj _ (by omega) _ (by omega) h2
  exact ⟨by omega, h3⟩

theorem pct_streams : ∀ (l1 l2 : List Nat) (r1 r2 : List Char),
    (∀ b ∈ l1, b < 256) → (∀ b ∈ l2, b < 256) → l1.length = l2.length →
    l1.flatMap pctGroup ++ r1 = l2.flatMap pctGroup ++ r2 → l1 = l2 ∧ r1 = r2 := by
  intro l1
  induction l1 with
  | nil =>
    intro l2 r1 r2 _ _ hlen h
    have : l2 = [] := by
      cases l2 with
      | nil => rfl
      | cons => simp at hlen
    subst this
    simpa using h
  | cons b bs ih =>
    intro l2 r1 r2 hb1 hb2 hlen h
    cases l2 with
    | nil => simp at hlen
    | cons b2 bs2 =>
      simp only [List.flatMap_cons, List.append_assoc] at h
      obtain ⟨he, ht⟩ := pct_head_eq (hb1 b (by simp)) (hb2 b2 (by simp)) h
      obtain ⟨hl, hr⟩ := ih bs2 r1 r2 (fun x hx => hb1 x (by simp [hx]))
        (fun x hx => hb2 x (by simp [hx])) (by simpa using hlen) ht
      exact ⟨by rw [he, hl], hr⟩

theorem encodeChar_ne_nil (c : Char) : encodeChar c ≠ [] := by
  unfold encodeChar
  by_cases h : uriUnescaped c
  · simp [h]
  · obtain ⟨b, bs, hb⟩ := List.exists_cons_of_ne_nil (utf8Bytes_ne_nil c)
    simp [h, hb, pctGroup]

theorem pct_char_not_unescaped {c : Char} (h : uriUnescaped c = true) :
    c ≠ Char.ofNat 37 := by
  intro he
  rw [he] at h
  exact absurd h (by decide)

/-- Per-character encodings are self-delimiting: equal encoded streams start
with equal characters. -/
theorem encodeChar_step {c d : Char} {r1 r2 : List Char}
    (h : encodeChar c ++ r1 = encodeChar d ++ r2) : c = d ∧ r1 = r2 := by
  by_cases hc : uriUnescaped c <;> by_cases hd : uriUnescaped d
  · simp only [encodeChar, if_pos hc, if_pos hd, List.cons_append,
      List.nil_append, List.cons.injEq] at h
    exact h
  · exfalso
    obtain ⟨b, bs, hb⟩ := List.exists_cons_of_ne_nil (utf8Bytes_ne_nil d)
    simp only [encodeChar, if_pos hc, if_neg hd, hb, List.flatMap_cons,
      pctGroup, List.cons_append, List.nil_append, List.cons.injEq] at h
    exact pct_char_not_unescaped hc h.1
  · exfalso
    obtain ⟨b, bs, hb⟩ := List.exists_cons_of_ne_nil (utf8Bytes_ne_nil c)
    simp only [encodeChar, if_neg hc, if_pos hd, hb, List.flatMap_cons,
      pctGroup, List.cons_append, List.nil_append, List.cons.injEq] at h
    exact pct_char_not_unescaped hd h.1.symm
  · simp only [encodeChar, if_neg hc, if_neg hd] at h
    obtain ⟨b, bs, hb⟩ := List.exists_cons_of_ne_nil (utf8Bytes_ne_nil c)
    obtain ⟨b2, bs2, hb2⟩ := List.exists_cons_of_ne_nil (utf8Bytes_ne_nil d)
    have hfirst : b = b2 := by
      rw [hb, hb2] at h
      simp only [List.flatMap_cons, List.append_assoc] at h
      exact (pct_head_eq (utf8Bytes_lt c b (by rw [hb]; simp))
        (utf8Bytes_lt d b2 (by rw [hb2]; simp)) h).1
    have hlen : (utf8Bytes c).length = (utf8Bytes d).length := by
      rw [utf8_len_head c b (by rw [hb]; rfl),
        utf8_len_head d b2 (by rw [hb2]; rfl), hfirst]
    obtain ⟨hbyte, hr⟩ := pct_streams (utf8Bytes c) (utf8Bytes d) r1 r2
      (utf8Bytes_lt c) (utf8Bytes_lt d) hlen h
    exact ⟨utf8Bytes_inj hbyte, hr⟩

theorem encode_flatMap_inj : ∀ l1 l2 : List Char,
    l1.flatMap encodeChar = l2.flatMap encodeChar → l1 = l2 := by
  intro l1
  induction l1 with
  | nil =>
    intro l2 h
    cases l2 with
    | nil => rfl
    | cons d ds =>
      exfalso
      simp only [List.flatMap_nil, List.flatMap_cons] at h
      obtain ⟨b, bs, hb⟩ := List.exists_cons_of_ne_nil (encodeChar_ne_nil d)
      rw [hb] at h
      simp at h
  | cons c cs ih =>
    intro l2 h
    cases l2 with
    | nil =>
      exfalso
      simp only [List.flatMap_cons, List.flatMap_nil] at h
      obtain ⟨b, bs, hb⟩ := List.exists_cons_of_ne_nil (encodeChar_ne_nil c)
      rw [hb] at h
      simp at h
    | cons d ds =>
      simp only [List.flatMap_cons] at h
      obtain ⟨he, ht⟩ := encodeChar_step h
      rw [he, ih ds ht]

/-- encodeURIComponent is injective: distinct strings give distinct encodings,
hence distinct MusicCache search keys. -/
theorem encodeComponent_inj {x y : String}
    (h : encodeComponent x = encodeComponent y) : x = y := by
  have h2 := congrArg String.data h
  simp only [encodeComponent] at h2
  exact String.ext (encode_flatMap_inj _ _ h2)

end MusicCache

/-! ## Concrete fixtures used by the claim theorems -/

/-- An environment in which every upstream fetch fails at the transport level
(every request rejects before a response arrives). -/
def envDown : Env :=
  { searchResp := fun _ _ => .error .transport
    releaseResp := fun _ => .error .transport
    rgResp := fun _ => .error .transport
    artistResp := fun _ => .error .transport
    coverResp := fun _ => .netError
    artworkSave := fun _ _ => none }

/-- An environment in which the cover-art provider answers every metadata
request with an empty image list and everything else transport-fails. -/
def envNoImages : Env :=
  { searchResp := fun _ _ => .error .transport
    releaseResp := fun _ => .error .transport
    rgResp := fun _ => .error .transport
    artistResp := fun _ => .error .transport
    coverResp := fun _ => .ok (some [])
    artworkSave := fun _ _ => none }

/-! ## Claim theorems -/

/-- C1.  The claim states that at most 5 requests are dispatched within any
sliding 1000 ms window and that the limiter never awaits between checking the
window and recording the new timestamp.  The shipped code records a timestamp
only after `await fetch` resolves, so six callers entering makeRequest on the
same event-loop turn each see an empty window and all six dispatch their
fetches at the same instant: six dispatches inside one 1000 ms window, with
nothing recorded in the limiter state at dispatch time. -/
theorem rateLimiter_burst_bound_violated :
    (RateLimiter.runEntries 6 2000 {}).1 = [2000, 2000, 2000, 2000, 2000, 2000]
    ∧ ((RateLimiter.runEntries 6 2000 {}).1.filter
        (fun t => decide (2000 ≤ t ∧ t < 2000 + RateLimiter.BURST_WINDOW))).length = 6
    ∧ RateLimiter.BURST_LIMIT < 6
    ∧ (RateLimiter.runEntries 6 2000 {}).2.requestTimes = [] := by
  decide

/-- C5.  ListeningEntries.validateRating as shipped accepts 0, 10 and 7.5 and
rejects NaN and Infinity as the claim states, but its bounds are
`rating >= -1 && rating <= 11`, so it also accepts -1 and 11, which the claim
(and the repository's own tests) say it must reject. -/
theorem validateRating_boundary_evaluations :
    ListeningEntries.validateRating (.num 0) = true
    ∧ ListeningEntries.validateRating (.num 10) = true
    ∧ ListeningEntries.validateRating (.num (7.5 : ℚ)) = true
    ∧ ListeningEntries.validateRating (.num (-1)) = true
    ∧ ListeningEntries.validateRating (.num 11) = true
    ∧ ListeningEntries.validateRating .nan = false
    ∧ ListeningEntries.validateRating .inf = false := by
  refine ⟨?_, ?_, ?_, ?_, ?_, rfl, rfl⟩ <;>
    simp [ListeningEntries.validateRating, JSNum.jsGe, JSNum.jsLe,
      JSNum.isFinite] <;> norm_num

/-- C2.  The claim describes getCoverArtUrl as fetching the image-metadata
endpoint, selecting the front image (falling back to the first), preferring
the 500 px thumbnail, returning null on error or when no images exist, and
preferring the locally saved path.  The shipped function returns the metadata
endpoint URL unconditionally at line 473 (every subsequent line is
unreachable): here it returns a non-null URL even in an environment where the
provider reports zero images, where the documented resolution logic
(coverArtResolution) yields null. -/
theorem getCoverArtUrl_short_circuits :
    (∀ mbid, MusicBrainzClient.getCoverArtUrl mbid
      = some (MusicBrainzClient.coverArtMetadataUrl mbid))
    ∧ MusicBrainzClient.getCoverArtUrl "abc"
      = some "https://coverartarchive.org/release/abc"
    ∧ MusicBrainzClient.coverArtResolution envNoImages "abc" = none
    ∧ MusicBrainzClient.getCoverArtUrl "abc"
      ≠ MusicBrainzClient.coverArtResolution envNoImages "abc" := by
  refine ⟨fun _ => rfl, rfl, rfl, by decide⟩

/-- C3 counterexample.  The claim says a transport failure is thrown/
propagated by getRelease and getArtist.  In an environment where every fetch
transport-fails, both return .ok none (the catch blocks at lines 391 and 412
swallow the error into null) instead of propagating an error. -/
theorem getRelease_swallows_transport :
    MusicBrainzClient.getRelease envDown "r1" = .ok none
    ∧ MusicBrainzClient.getArtist envDown "a1" = .ok none :=
  ⟨rfl, rfl⟩

/-- C3 amended.  getRelease and getArtist never throw: every makeRequest
failure - provider "not found" (a non-ok status such as 404), transport
errors and unexpected shapes alike - is caught and returned as null, as is a
release without an artist credit, so the caller cannot distinguish a missing
record from an unavailable upstream. -/
theorem getRelease_getArtist_never_throw :
    (∀ (env : Env) (mbid : String) (e : MB.FetchErr),
        MusicBrainzClient.getRelease env mbid ≠ .error e)
    ∧ (∀ (env : Env) (mbid : String) (e : MB.FetchErr),
        MusicBrainzClient.getArtist env mbid ≠ .error e)
    ∧ (∀ (env : Env) (mbid : String) (e : MB.FetchErr),
        env.releaseResp mbid = .error e →
        MusicBrainzClient.getRelease env mbid = .ok none)
    ∧ (∀ (env : Env) (mbid : String) (e : MB.FetchErr),
        env.artistResp mbid = .error e →
        MusicBrainzClient.getArtist env mbid = .ok none)
    ∧ (∀ (env : Env) (mbid : String) (rel : MB.ReleaseResponse),
        env.releaseResp mbid = .ok rel → rel.artistCredit = [] →
        MusicBrainzClient.getRelease env mbid = .ok none) := by
  refine ⟨?_, ?_, ?_, ?_, ?_⟩
  · intro env mbid e
    cases h : env.releaseResp mbid with
    | error e2 => simp [MusicBrainzClient.getRelease, h]
    | ok rel =>
      cases hc : rel.artistCredit with
      | nil => simp [MusicBrainzClient.getRelease, h, hc]
      | cons c cs => simp [MusicBrainzClient.getRelease, h, hc]
  · intro env mbid e
    cases h : env.artistResp mbid with
    | error e2 => simp [MusicBrainzClient.getArtist, h]
    | ok a => simp [MusicBrainzClient.getArtist, h]
  · intro env mbid e h
    simp [MusicBrainzClient.getRelease, h]
  · intro env mbid e h
    simp [MusicBrainzClient.getArtist, h]
  · intro env mbid rel h hc
    simp [MusicBrainzClient.getRelease, h, hc]

/-- C3 witness: the amended theorem applied to the all-transport-fail
environment at a concrete id. -/
theorem getRelease_getArtist_never_throw_witness :
    MusicBrainzClient.getRelease envDown "r1" = .ok none :=
  getRelease_getArtist_never_throw.2.2.1 envDown "r1" .transport rfl

/-- The albums accumulated by the release-group loop are the per-group album
contributions in order. -/
theorem searchLoop_fst (env : Env) (gs : List MB.RGEntry) (acc : List MS.Album)
    (s : Store) :
    (MusicBrainzClient.searchLoop env gs acc s).1
      = acc ++ gs.flatMap (MusicBrainzClient.processGroupAlbums env) := by
  induction gs generalizing acc s with
  | nil => simp [MusicBrainzClient.searchLoop]
  | cons g rest ih => simp [MusicBrainzClient.searchLoop, ih]

/-- Release groups whose artist-credit array is empty contribute no albums, so
the per-group contributions can be restricted to the credited groups. -/
theorem flatMap_processGroup_filter (env : Env) (gs : List MB.RGEntry) :
    gs.flatMap (MusicBrainzClient.processGroupAlbums env)
      = (gs.filter (fun g => !g.artistCredit.isEmpty)).flatMap
          (MusicBrainzClient.processGroupAlbums env) := by
  induction gs with
  | nil => simp
  | cons g rest ih =>
    cases hc : g.artistCredit with
    | nil => simp [MusicBrainzClient.processGroupAlbums, hc, ih]
    | cons c cs => simp [hc, ih]

/-- C4.  For a release group of the search response that carries an artist
credit but yields zero resolvable releases - in particular when the per-group
release sub-fetch fails, which getReleaseGroupReleases catches into an empty
list - search still succeeds and its result contains the degraded Album
synthesized from the group metadata: group id as album id, group title, the
first artist credit, the group's first-release-date, and no cover art. -/
theorem search_degrades_to_fallback_album
    (env : Env) (s : Store) (q : String) (limit : Nat)
    (data : MB.SearchResponse) (g : MB.RGEntry) (credit : MB.Credit)
    (rest : List MB.Credit)
    (hresp : env.searchResp q limit = .ok data)
    (hmem : g ∈ data.releaseGroups.getD [])
    (hcredit : g.artistCredit = credit :: rest)
    (hzero : (∃ e, env.rgResp g.id = .error e) ∨
      MusicBrainzClient.getReleaseGroupReleases env g.id 1
        (some credit.name) (some credit.artist.id) = []) :
    ∃ res s', MusicBrainzClient.search env s q limit = .ok (res, s')
      ∧ MusicBrainzClient.fallbackAlbum g credit ∈ res.albums := by
  have hrel : MusicBrainzClient.getReleaseGroupReleases env g.id 1
      (some credit.name) (some credit.artist.id) = [] := by
    rcases hzero with ⟨e, he⟩ | h
    · simp [MusicBrainzClient.getReleaseGroupReleases, he]
    · exact h
  have hpg : MusicBrainzClient.processGroupAlbums env g
      = [MusicBrainzClient.fallbackAlbum g credit] := by
    simp [MusicBrainzClient.processGroupAlbums, hcredit, hrel]
  refine ⟨⟨(MusicBrainzClient.searchLoop env (data.releaseGroups.getD []) [] s).1,
      MusicBrainzClient.searchArtists data, data.count⟩,
    (MusicBrainzClient.searchLoop env (data.releaseGroups.getD []) [] s).2,
    by simp [MusicBrainzClient.search, hresp], ?_⟩
  rw [searchLoop_fst]
  simp only [List.nil_append]
  exact List.mem_flatMap.mpr ⟨g, hmem, by simp [hpg]⟩

/-- C4 fixtures: one credited release group whose release sub-fetch
transport-fails. -/
def credit4 : MB.Credit := { name := "A", artist := { id := "a1", name := "A" } }

def rg4 : MB.RGEntry :=
  { id := "rg1", title := "G", artistCredit := [credit4],
    firstReleaseDate := some "1999-01-01" }

def data4 : MB.SearchResponse :=
  { releaseGroups := some [rg4], artists := none, count := 1 }

def env4 : Env :=
  { searchResp := fun _ _ => .ok data4
    releaseResp := fun _ => .error .transport
    rgResp := fun _ => .error .transport
    artistResp := fun _ => .error .transport
    coverResp := fun _ => .netError
    artworkSave := fun _ _ => none }

/-- C4 witness: the degradation theorem applied to the concrete fixture. -/
theorem search_degrades_to_fallback_album_witness :
    ∃ res s', MusicBrainzClient.search env4 emptyStore "q" 10 = .ok (res, s')
      ∧ MusicBrainzClient.fallbackAlbum rg4 credit4 ∈ res.albums :=
  search_degrades_to_fallback_album env4 emptyStore "q" 10 data4 rg4 credit4 []
    rfl (by simp [data4]) rfl (Or.inl ⟨.transport, rfl⟩)

/-- C10.  A release group of the search response whose artist-credit array is
empty is silently skipped: its loop iteration contributes no album and writes
nothing to the store, and the search result's albums are exactly the
contributions of the groups that carry at least one artist credit. -/
theorem search_skips_creditless_groups
    (env : Env) (s : Store) (q : String) (limit : Nat)
    (data : MB.SearchResponse) (g : MB.RGEntry)
    (hresp : env.searchResp q limit = .ok data)
    (hmem : g ∈ data.releaseGroups.getD [])
    (hnc : g.artistCredit = []) :
    MusicBrainzClient.processGroupAlbums env g = []
    ∧ (∀ s0, MusicBrainzClient.processGroupStore env s0 g = s0)
    ∧ MusicBrainzClient.search env s q limit = .ok
        ({ albums := ((data.releaseGroups.getD []).filter
              (fun g2 => !g2.artistCredit.isEmpty)).flatMap
                (MusicBrainzClient.processGroupAlbums env),
           artists := MusicBrainzClient.searchArtists data,
           total := data.count },
          (MusicBrainzClient.searchLoop env (data.releaseGroups.getD []) [] s).2) := by
  have h1 : MusicBrainzClient.processGroupAlbums env g = [] := by
    simp [MusicBrainzClient.processGroupAlbums, hnc]
  refine ⟨h1, fun s0 => by simp [MusicBrainzClient.processGroupStore, h1], ?_⟩
  have h2 : (MusicBrainzClient.searchLoop env (data.releaseGroups.getD []) [] s).1
      = ((data.releaseGroups.getD []).filter
          (fun g2 => !g2.artistCredit.isEmpty)).flatMap
            (MusicBrainzClient.processGroupAlbums env) := by
    rw [searchLoop_fst, List.nil_append, flatMap_processGroup_filter]
  simp [MusicBrainzClient.search, hresp, ← h2]

/-- C10 fixtures: one release group with an empty artist-credit array. -/
def rg10 : MB.RGEntry := { id := "rg2", title := "G2", artistCredit := [] }

def data10 : MB.SearchResponse :=
  { releaseGroups := some [rg10], artists := none, count := 1 }

def env10 : Env :=
  { searchResp := fun _ _ => .ok data10
    releaseResp := fun _ => .error .transport
    rgResp := fun _ => .error .transport
    artistResp := fun _ => .error .transport
    coverResp := fun _ => .netError
    artworkSave := fun _ _ => none }

/-- C6.  Round trip: for each kind, reading back immediately (or at any time
before the TTL deadline) after a cache write returns a record equal in all
fields to the one written.  MusicCache writes album/artist/release-group
entries with the default 24 h TTL; MusicStorage album/artist writes carry no
TTL at all, so the read-back holds at every later time. -/
theorem cache_roundtrip_until_ttl :
    (∀ (s : Store) (t tq : Nat) (a : MC.Album), tq < t + MusicCache.DEFAULT_TTL →
        MusicCache.getCachedAlbum (MusicCache.cacheAlbum s t a) tq a.id = some a)
    ∧ (∀ (s : Store) (t tq : Nat) (ar : MC.Artist), tq < t + MusicCache.DEFAULT_TTL →
        MusicCache.getCachedArtist (MusicCache.cacheArtist s t ar) tq ar.id = some ar)
    ∧ (∀ (s : Store) (t tq : Nat) (g : MC.ReleaseGroup), tq < t + MusicCache.DEFAULT_TTL →
        MusicCache.getCachedReleaseGroup (MusicCache.cacheReleaseGroup s t g) tq g.id
          = some g)
    ∧ (∀ (s : Store) (tq : Nat) (a : MS.Album),
        MusicStorage.getCachedAlbum (MusicStorage.cacheAlbum s a) tq a.id = some a)
    ∧ (∀ (s : Store) (tq : Nat) (ar : MS.Artist),
        MusicStorage.getCachedArtist (MusicStorage.cacheArtist s ar) tq ar.id
          = some ar) := by
  refine ⟨?_, ?_, ?_, ?_, ?_⟩
  · intro s t tq a h
    unfold MusicCache.getCachedAlbum MusicCache.cacheAlbum
    rw [redisGet_setExpire_live _ _ _ h]
  · intro s t tq ar h
    unfold MusicCache.getCachedArtist MusicCache.cacheArtist
    rw [redisGet_setExpire_live _ _ _ h]
  · intro s t tq g h
    unfold MusicCache.getCachedReleaseGroup MusicCache.cacheReleaseGroup
    rw [redisGet_setExpire_live _ _ _ h]
  · intro s tq a
    have hne : ("album:" ++ a.id : String) ≠ "album:hash:" ++ a.id := by
      have e1 : ("album:hash:" ++ a.id : String) = "album:" ++ ("hash:" ++ a.id) :=
        String.ext (by simp [String.data_append])
      rw [e1]
      exact str_append_ne (id_ne_hash_id a.id)
    unfold MusicStorage.getCachedAlbum MusicStorage.cacheAlbum
    rw [redisGet_set_ne _ _ _ hne, redisGet_set_self]
  · intro s tq ar
    unfold MusicStorage.getCachedArtist MusicStorage.cacheArtist
    rw [redisGet_set_self]

/-- C6 fixture. -/
def albumC6 : MC.Album := { id := "r1", title := "T", artist := "A", artistId := "a1" }

/-- C6 witness: the round-trip theorem at a concrete album, written at time 0
and read back at time 0. -/
theorem cache_roundtrip_until_ttl_witness :
    MusicCache.getCachedAlbum (MusicCache.cacheAlbum emptyStore 0 albumC6) 0 "r1"
      = some albumC6 :=
  cache_roundtrip_until_ttl.1 emptyStore 0 0 albumC6 (by decide)

/-- C7 counterexample.  Two concrete violations of the claim as stated:
an album whose internal id happens to begin with the "mbid:" key prefix makes
cacheAlbum create the external-id entry (getCachedAlbumByMBID "x" then finds
the record cached under internal id "mbid:x"); and invalidateArtist deletes
the artist's albums secondary collection, which the claim says is left
unchanged. -/
def albumClashC7 : MS.Album :=
  { id := "mbid:x", title := "X", artistName := "Y", artistId := "a1" }

def albumListC7 : MC.Album := { id := "w", title := "W", artist := "Z", artistId := "a1" }

theorem dual_key_counterexample :
    MusicStorage.getCachedAlbumByMBID (MusicStorage.cacheAlbum emptyStore albumClashC7)
      0 "x" = some albumClashC7
    ∧ MusicCache.getCachedArtistAlbums
        (MusicCache.invalidateArtist
          (MusicCache.cacheArtistAlbums emptyStore 0 "a1" [albumListC7]) "a1")
        0 "a1" = none := by
  exact ⟨rfl, rfl⟩

/-- C7 amended.  For ids that do not collide with the reserved key syntax
(no colon in the id; for invalidateArtist additionally the id is not the
four-character string "mbid"), internal-id and external-id entries are
independent: cacheAlbum neither creates nor alters any external-id entry;
invalidateAlbum deletes the internal-id entry only, leaving external-id
entries, the search-result cache and the secondary collections unchanged;
invalidateArtist deletes the internal-id entry AND that artist's albums
secondary collection, leaving external-id entries and the search cache
unchanged. -/
theorem dual_key_frame :
    (∀ (s : Store) (a : MS.Album) (mb : String) (t : Nat), ¬ (':' ∈ a.id.data) →
        MusicStorage.getCachedAlbumByMBID (MusicStorage.cacheAlbum s a) t mb
          = MusicStorage.getCachedAlbumByMBID s t mb)
    ∧ (∀ (s : Store) (albumId mb : String) (t : Nat), ¬ (':' ∈ albumId.data) →
        MusicCache.getCachedAlbumByMBID (MusicCache.invalidateAlbum s albumId) t mb
          = MusicCache.getCachedAlbumByMBID s t mb)
    ∧ (∀ (s : Store) (albumId q : String) (t : Nat),
        MusicCache.getCachedSearchResults (MusicCache.invalidateAlbum s albumId) t q
          = MusicCache.getCachedSearchResults s t q)
    ∧ (∀ (s : Store) (albumId gid : String) (t : Nat),
        MusicCache.getCachedReleaseGroupReleases
            (MusicCache.invalidateAlbum s albumId) t gid
          = MusicCache.getCachedReleaseGroupReleases s t gid)
    ∧ (∀ (s : Store) (albumId aid : String) (t : Nat),
        MusicCache.getCachedArtistAlbums (MusicCache.invalidateAlbum s albumId) t aid
          = MusicCache.getCachedArtistAlbums s t aid)
    ∧ (∀ (s : Store) (artistId mb : String) (t : Nat),
        ¬ (':' ∈ artistId.data) → artistId ≠ "mbid" →
        MusicCache.getCachedArtistByMBID (MusicCache.invalidateArtist s artistId) t mb
          = MusicCache.getCachedArtistByMBID s t mb)
    ∧ (∀ (s : Store) (artistId q : String) (t : Nat),
        MusicCache.getCachedSearchResults (MusicCache.invalidateArtist s artistId) t q
          = MusicCache.getCachedSearchResults s t q) := by
  refine ⟨?_, ?_, ?_, ?_, ?_, ?_, ?_⟩
  · intro s a mb t hc
    have e1 : ("album:mbid:" ++ mb : String) = "album:" ++ ("mbid:" ++ mb) :=
      String.ext (by simp [String.data_append])
    have e2 : ("album:hash:" ++ a.id : String) = "album:" ++ ("hash:" ++ a.id) :=
      String.ext (by simp [String.data_append])
    have hne1 : ("album:mbid:" ++ mb : String) ≠ "album:hash:" ++ a.id := by
      rw [e1, e2]
      exact str_append_ne (hash_ne_mbid a.id mb).symm
    have hne2 : ("album:mbid:" ++ mb : String) ≠ "album:" ++ a.id := by
      rw [e1]
      exact str_append_ne (no_colon_ne_mbid_append hc mb).symm
    unfold MusicStorage.getCachedAlbumByMBID MusicStorage.cacheAlbum
    rw [redisGet_set_ne _ _ _ hne1, redisGet_set_ne _ _ _ hne2]
  · intro s albumId mb t hc
    have e1 : ("album:mbid:" ++ mb : String) = "album:" ++ ("mbid:" ++ mb) :=
      String.ext (by simp [String.data_append])
    have hne : ("album:mbid:" ++ mb : String) ≠ "album:" ++ albumId := by
      rw [e1]
      exact str_append_ne (no_colon_ne_mbid_append hc mb).symm
    unfold MusicCache.getCachedAlbumByMBID MusicCache.invalidateAlbum
    rw [redisGet_del_ne _ _ hne]
  · intro s albumId q t
    unfold MusicCache.getCachedSearchResults MusicCache.invalidateAlbum
    rw [redisGet_del_ne _ _ (search_key_ne_album_key _ _)]
  · intro s albumId gid t
    have e1 : ("release_group:" ++ gid ++ ":releases" : String)
        = "release_group:" ++ (gid ++ ":releases") := String.append_assoc _ _ _
    unfold MusicCache.getCachedReleaseGroupReleases MusicCache.invalidateAlbum
    rw [e1, redisGet_del_ne _ _ (rg_key_ne_album_key _ _)]
  · intro s albumId aid t
    have e1 : ("artist:" ++ aid ++ ":albums" : String)
        = "artist:" ++ (aid ++ ":albums") := String.append_assoc _ _ _
    unfold MusicCache.getCachedArtistAlbums MusicCache.invalidateAlbum
    rw [e1, redisGet_del_ne _ _ (artist_key_ne_album_key _ _)]
  · intro s artistId mb t hc hm
    have e1 : ("artist:mbid:" ++ mb : String) = "artist:" ++ ("mbid:" ++ mb) :=
      String.ext (by simp [String.data_append])
    have e2 : ("artist:" ++ artistId ++ ":albums" : String)
        = "artist:" ++ (artistId ++ ":albums") := String.append_assoc _ _ _
    have hne1 : ("artist:mbid:" ++ mb : String) ≠ "artist:" ++ artistId ++ ":albums" := by
      rw [e1, e2]
      exact str_append_ne (albums_suffix_ne_mbid_append hc hm mb).symm
    have hne2 : ("artist:mbid:" ++ mb : String) ≠ "artist:" ++ artistId := by
      rw [e1]
      exact str_append_ne (no_colon_ne_mbid_append hc mb).symm
    unfold MusicCache.getCachedArtistByMBID MusicCache.invalidateArtist
    rw [redisGet_del_ne _ _ hne1, redisGet_del_ne _ _ hne2]
  · intro s artistId q t
    have e2 : ("artist:" ++ artistId ++ ":albums" : String)
        = "artist:" ++ (artistId ++ ":albums") := String.append_assoc _ _ _
    unfold MusicCache.getCachedSearchResults MusicCache.invalidateArtist
    rw [e2, redisGet_del_ne _ _ (search_key_ne_artist_key _ _),
      redisGet_del_ne _ _ (search_key_ne_artist_key _ _)]

/-- C7 fixture. -/
def albumFrameC7 : MS.Album :=
  { id := "r7", title := "T", artistName := "A", artistId := "a1" }

/-- C7 witness: the frame theorem at a concrete colon-free album id. -/
theorem dual_key_frame_witness :
    MusicStorage.getCachedAlbumByMBID (MusicStorage.cacheAlbum emptyStore albumFrameC7)
      0 "r7" = MusicStorage.getCachedAlbumByMBID emptyStore 0 "r7" :=
  dual_key_frame.1 emptyStore albumFrameC7 "r7" 0 (by decide)

/-- C8 counterexample.  MusicStorage.cacheAlbum (an entity-cache write named
by the claim) installs the entry with no expiry deadline, and the record is
still retrievable at an arbitrarily late time, so not every written cache
entry expires automatically. -/
def albumC8 : MS.Album := { id := "r8", title := "T", artistName := "A", artistId := "a1" }

theorem musicstorage_entity_write_never_expires :
    (MusicStorage.cacheAlbum emptyStore albumC8) ("album:" ++ "r8")
      = some { val := .msAlbum albumC8, expiresAt := none }
    ∧ MusicStorage.getCachedAlbum (MusicStorage.cacheAlbum emptyStore albumC8)
        1000000000 "r8" = some albumC8 := by
  exact ⟨rfl, rfl⟩

/-- C8 amended.  MusicCache writes serialize the record under a kind-prefixed
key and install the kind's TTL deadline (24 h for album/artist/release-group
entries, 4 h for search results, 7 days for cover-art URLs), after which a
read returns absent; MusicStorage also uses kind-prefixed keys, but its
entity writes install no TTL (its entries never expire) - only its
search-result cache gets a TTL (1 h). -/
theorem cache_ttl_policy :
    (∀ (s : Store) (t : Nat) (a : MC.Album),
        (MusicCache.cacheAlbum s t a) ("album:" ++ a.id)
          = some { val := .mcAlbum a, expiresAt := some (t + MusicCache.DEFAULT_TTL) })
    ∧ (∀ (s : Store) (t : Nat) (ar : MC.Artist),
        (MusicCache.cacheArtist s t ar) ("artist:" ++ ar.id)
          = some { val := .mcArtist ar, expiresAt := some (t + MusicCache.DEFAULT_TTL) })
    ∧ (∀ (s : Store) (t : Nat) (g : MC.ReleaseGroup),
        (MusicCache.cacheReleaseGroup s t g) ("release_group:" ++ g.id)
          = some { val := .mcReleaseGroup g,
                   expiresAt := some (t + MusicCache.DEFAULT_TTL) })
    ∧ (∀ (s : Store) (t : Nat) (q : String) (r : MC.SearchResult),
        (MusicCache.cacheSearchResults s t q r)
            ("search:" ++ MusicCache.encodeComponent (jsToLower q))
          = some { val := .mcSearch r, expiresAt := some (t + MusicCache.SEARCH_TTL) })
    ∧ (∀ (s : Store) (t : Nat) (mb u : String),
        (MusicCache.cacheCoverArt s t mb u) ("cover:" ++ mb)
          = some { val := .rawStr u, expiresAt := some (t + MusicCache.COVER_ART_TTL) })
    ∧ (∀ (s : Store) (t : Nat) (a : MC.Album) (tq : Nat),
        t + MusicCache.DEFAULT_TTL ≤ tq →
        MusicCache.getCachedAlbum (MusicCache.cacheAlbum s t a) tq a.id = none)
    ∧ (∀ (s : Store) (a : MS.Album),
        (MusicStorage.cacheAlbum s a) ("album:" ++ a.id)
          = some { val := .msAlbum a, expiresAt := none })
    ∧ (∀ (s : Store) (t : Nat) (q : String) (r : MS.SearchResult),
        (MusicStorage.cacheSearchResults s t q r) ("search:" ++ jsToLower q)
          = some { val := .msSearch r, expiresAt := some (t + 3600) }) := by
  refine ⟨?_, ?_, ?_, ?_, ?_, ?_, ?_, ?_⟩
  · intro s t a
    simp [MusicCache.cacheAlbum, redisExpire, redisSet]
  · intro s t ar
    simp [MusicCache.cacheArtist, redisExpire, redisSet]
  · intro s t g
    simp [MusicCache.cacheReleaseGroup, redisExpire, redisSet]
  · intro s t q r
    simp [MusicCache.cacheSearchResults, redisExpire, redisSet]
  · intro s t mb u
    simp [MusicCache.cacheCoverArt, redisExpire, redisSet]
  · intro s t a tq h
    unfold MusicCache.getCachedAlbum MusicCache.cacheAlbum
    rw [redisGet_setExpire_dead _ _ _ h]
  · intro s a
    have hne : ("album:" ++ a.id : String) ≠ "album:hash:" ++ a.id := by
      have e1 : ("album:hash:" ++ a.id : String) = "album:" ++ ("hash:" ++ a.id) :=
        String.ext (by simp [String.data_append])
      rw [e1]
      exact str_append_ne (id_ne_hash_id a.id)
    simp [MusicStorage.cacheAlbum, redisSet, hne]
  · intro s t q r
    simp [MusicStorage.cacheSearchResults, redisExpire, redisSet]

/-- C8 witness fixture. -/
def albumC8mc : MC.Album := { id := "r8c", title := "T", artist := "A", artistId := "a1" }

/-- C8 witness: the TTL-policy theorem's expired-read conjunct at time 0 plus
the 24 h deadline. -/
theorem cache_ttl_policy_witness :
    MusicCache.getCachedAlbum (MusicCache.cacheAlbum emptyStore 0 albumC8mc)
      86400 "r8c" = none :=
  cache_ttl_policy.2.2.2.2.2.1 emptyStore 0 albumC8mc 86400 (by decide)

/-- C9 counterexample.  The search-cache key is the lowercased query with no
trimming: a result cached under " beatles" is not found by "beatles" (the
claim says queries differing only in surrounding whitespace share an entry),
while " BEATLES", differing only in case, does find it. -/
def resultC9 : MS.SearchResult := { albums := [], artists := [], total := 1 }

theorem search_cache_whitespace_distinct :
    MusicStorage.getCachedSearchResults
        (MusicStorage.cacheSearchResults emptyStore 0 " beatles" resultC9) 0 "beatles"
      = none
    ∧ MusicStorage.getCachedSearchResults
        (MusicStorage.cacheSearchResults emptyStore 0 " beatles" resultC9) 0 " BEATLES"
      = some resultC9 := by
  exact ⟨rfl, rfl⟩

/-- C9 amended.  The search-result cache key is the query lowercased and
nothing else (MusicCache percent-encodes the lowercased query): in both
caches two queries address the same entry exactly when their lowercasings
coincide, so queries differing only in case collapse, while queries differing
in surrounding whitespace or in word order address distinct entries - for
MusicCache the distinctness direction rests on the injectivity of
encodeURIComponent (encodeComponent_inj). -/
theorem search_key_casefold_only :
    (∀ (s : Store) (t : Nat) (q1 q2 : String) (r : MS.SearchResult),
        jsToLower q1 = jsToLower q2 →
        MusicStorage.getCachedSearchResults
            (MusicStorage.cacheSearchResults s t q1 r) t q2 = some r)
    ∧ (∀ (s : Store) (t : Nat) (q1 q2 : String) (r : MS.SearchResult),
        jsToLower q1 ≠ jsToLower q2 →
        MusicStorage.getCachedSearchResults
            (MusicStorage.cacheSearchResults s t q1 r) t q2
          = MusicStorage.getCachedSearchResults s t q2)
    ∧ (∀ (s : Store) (t : Nat) (q1 q2 : String) (r : MC.SearchResult),
        jsToLower q1 = jsToLower q2 →
        MusicCache.getCachedSearchResults
            (MusicCache.cacheSearchResults s t q1 r) t q2 = some r)
    ∧ (∀ (s : Store) (t : Nat) (q1 q2 : String) (r : MC.SearchResult),
        jsToLower q1 ≠ jsToLower q2 →
        MusicCache.getCachedSearchResults
            (MusicCache.cacheSearchResults s t q1 r) t q2
          = MusicCache.getCachedSearchResults s t q2) := by
  refine ⟨?_, ?_, ?_, ?_⟩
  · intro s t q1 q2 r h
    unfold MusicStorage.getCachedSearchResults MusicStorage.cacheSearchResults
    rw [← h, redisGet_setExpire_live _ _ _ (show t < t + 3600 by simp)]
  · intro s t q1 q2 r h
    have hne : ("search:" ++ jsToLower q2 : String) ≠ "search:" ++ jsToLower q1 :=
      str_append_ne (Ne.symm h)
    unfold MusicStorage.getCachedSearchResults MusicStorage.cacheSearchResults
    rw [redisGet_expire_ne _ _ _ _ hne, redisGet_set_ne _ _ _ hne]
  · intro s t q1 q2 r h
    unfold MusicCache.getCachedSearchResults MusicCache.cacheSearchResults
    rw [← h, redisGet_setExpire_live _ _ _
      (show t < t + MusicCache.SEARCH_TTL by simp [MusicCache.SEARCH_TTL])]
  · intro s t q1 q2 r h
    have henc : MusicCache.encodeComponent (jsToLower q2)
        ≠ MusicCache.encodeComponent (jsToLower q1) :=
      fun he => h (MusicCache.encodeComponent_inj he).symm
    have hne : ("search:" ++ MusicCache.encodeComponent (jsToLower q2) : String)
        ≠ "search:" ++ MusicCache.encodeComponent (jsToLower q1) :=
      str_append_ne henc
    unfold MusicCache.getCachedSearchResults MusicCache.cacheSearchResults
    rw [redisGet_expire_ne _ _ _ _ hne, redisGet_set_ne _ _ _ hne]

/-- C9 witness: case-insensitive collapse at concrete queries. -/
def resultC9w : MS.SearchResult := { albums := [], artists := [], total := 2 }

theorem search_key_casefold_only_witness :
    MusicStorage.getCachedSearchResults
        (MusicStorage.cacheSearchResults emptyStore 0 "AbC" resultC9w) 0 "abc"
      = some resultC9w :=
  search_key_casefold_only.1 emptyStore 0 "AbC" "abc" resultC9w rfl

/-- C10 witness: the skip theorem applied to the concrete fixture. -/
theorem search_skips_creditless_groups_witness :
    MusicBrainzClient.processGroupAlbums env10 rg10 = []
    ∧ (∀ s0, MusicBrainzClient.processGroupStore env10 s0 rg10 = s0)
    ∧ MusicBrainzClient.search env10 emptyStore "q" 10 = .ok
        ({ albums := ((data10.releaseGroups.getD []).filter
              (fun g2 => !g2.artistCredit.isEmpty)).flatMap
                (MusicBrainzClient.processGroupAlbums env10),
           artists := MusicBrainzClient.searchArtists data10,
           total := data10.count },
          (MusicBrainzClient.searchLoop env10 (data10.releaseGroups.getD [])
            [] emptyStore).2) :=
  search_skips_creditless_groups env10 emptyStore "q" 10 data10 rg10 rfl
    (by simp [data10]) rfl

end AlbumADay
